import Mathlib

/-!
Verification development for the invenio-circulation loan state machine.

The embedding models, from `src/invenio_circulation/`:
- `utils.py` (policy defaults: `get_default_loan_duration`, `is_loan_valid`,
  `item_location_retriever`, `parse_date`),
- `transitions/transitions.py` (the six concrete transition behaviours and
  `_ensure_valid_loan`),
- `ext.py` (`_Circulation.__init__` and `_Circulation.trigger`),
- `config.py` (`CIRCULATION_LOAN_TRANSITIONS`, `CIRCULATION_STATES_ITEM_AVAILABLE`).

Modelling conventions:
- A Python `datetime` is an `Int` (seconds on a linear clock); `timedelta(days=n)`
  is `n * daySecs`.  An ISO-8601 date string is `DStr.iso t`, carrying the
  instant it denotes (ISO formatting/parsing round-trips the instant), and an
  unparseable string is `DStr.bad s` (ciso8601 raises `ValueError`).
- The loan is a Python dict; a missing key and a key holding `None` are both
  modelled as `none` / `DateField.absent` (Python distinguishes them only for
  `loan['k']`-style access, which the model renders as `keyError`).
- In-place mutation is explicit state passing: every step returns the (possibly
  partially) mutated loan together with its outcome, as `trigger` mutates the
  loan in place even when a later step raises.
- Exceptions become outcome values: `TransitionConditionsFailed` is the soft
  outcome; every other exception (`TransitionConstraintsViolation`,
  `TransitionPoliciesViolation`, `KeyError`, `TypeError`, `ValueError`,
  `AssertionError`, `NameError`, `InvalidState`, `NoValidTransitionAvailable`)
  is a hard error carried in `HardErr`.
-/

namespace Circ

/-- One day in seconds: `timedelta(days=1)`. -/
def daySecs : Int := 86400

/-- A date string: either a well-formed ISO-8601 string denoting instant `t`,
or a malformed string on which `ciso8601.parse_datetime` raises `ValueError`. -/
inductive DStr
  | iso (t : Int)
  | bad (s : String)
deriving DecidableEq, Repr

/-- A loan date field: missing (or `None`), a string, or a `datetime` object. -/
inductive DateField
  | absent
  | str (s : DStr)
  | dt (t : Int)
deriving DecidableEq, Repr

/-- The loan record (a mutable dict in the source). -/
structure Loan where
  state : Option String := none
  item_pid : Option String := none
  patron_pid : Option String := none
  pickup_location_pid : Option String := none
  transaction_location_pid : Option String := none
  transaction_date : DateField := .absent
  start_date : DateField := .absent
  end_date : DateField := .absent
deriving DecidableEq, Repr

/-- The keyword arguments of a `trigger` call (engine entry point):
`trigger` name plus the per-call loan parameters; `none`/`absent` means the
keyword was not supplied. -/
structure Kwargs where
  trigger : Option String := none
  pickup_location_pid : Option String := none
  transaction_location_pid : Option String := none
  transaction_date : DateField := .absent
  start_date : DateField := .absent
  end_date : DateField := .absent
deriving DecidableEq, Repr

/-- Hard (uncaught-by-the-engine) exception outcomes.
`constraintsViolation` is `TransitionConstraintsViolation`,
`policiesViolation` is `TransitionPoliciesViolation`; the rest are the Python
built-in exceptions the code can raise. -/
inductive HardErr
  | invalidState
  | noValidTransitionAvailable
  | keyError
  | typeError
  | valueError
  | constraintsViolation
  | policiesViolation
  | assertionError
  | nameError
deriving DecidableEq, Repr

/-- Outcome of one transition's `execute`: success, a soft
`TransitionConditionsFailed` (subclass of `TransitionValidationFailed`, the
class the engine loop catches), or a hard error. -/
inductive Outcome
  | ok
  | soft
  | hard (e : HardErr)
deriving DecidableEq, Repr

/-- Failure of a `before` step (no success payload yet). -/
inductive BFail
  | soft
  | hard (e : HardErr)
deriving DecidableEq, Repr

/-- The injected collaborators read from `current_app.config` at call time:
`CIRCULATION_ITEM_LOCATION_RETRIEVER` and the two checkout policies
(`duration_default`, `validate`).  `validate` may raise, hence `Except`. -/
structure Ctx where
  itemLocation : String → Option String
  durationDefault : Loan → Int
  validate : Loan → Int → Int → Except HardErr Bool

/-- `utils.item_location_retriever`: the default stub returns `None`. -/
def item_location_retriever (_ : String) : Option String := none

/-- `utils.get_default_loan_duration`: always 30 days. -/
def get_default_loan_duration (_ : Loan) : Int := 30

/-- `utils.is_loan_valid`: raises `TransitionPoliciesViolation` when the
duration exceeds 60 days, else returns `True`. -/
def is_loan_valid (_ : Loan) (start_date end_date : Int) : Except HardErr Bool :=
  if end_date - start_date > 60 * daySecs then .error .policiesViolation
  else .ok true

/-- The default collaborators, as bound in `config.CIRCULATION_POLICIES` /
`CIRCULATION_ITEM_LOCATION_RETRIEVER`. -/
def defaultCtx : Ctx :=
  ⟨item_location_retriever, get_default_loan_duration, is_loan_valid⟩

/-- `utils.parse_date`: falsy input is returned as-is (here: `none`), a
`datetime` is returned unchanged, a string is parsed by ciso8601
(`ValueError` on malformed input). -/
def parse_date : DateField → Except HardErr (Option Int)
  | .absent => .ok none
  | .dt t => .ok (some t)
  | .str (.iso t) => .ok (some t)
  | .str (.bad _) => .error .valueError

/-- Modelled from the spec: `transitions/conditions.py` is absent from `src/`.
`is_same_location(item_pid, location_pid)` holds when the configured location
retriever applied to the item pid yields exactly the given location pid. -/
def is_same_location (ctx : Ctx) (item_pid location_pid : String) : Bool :=
  ctx.itemLocation item_pid == some location_pid

/-- Python truthiness of an optional string: `None` and `''` are falsy. -/
def optFalsy : Option String → Bool
  | none => true
  | some s => s == ""

/-- The `loan.setdefault('start_date', loan['transaction_date'])` update
(the `transaction_date` presence check is made separately by the caller,
since Python evaluates the subscript before calling `setdefault`). -/
def setStart (l : Loan) : Loan :=
  if l.start_date = .absent then { l with start_date := l.transaction_date } else l

/-- The tail of `_ensure_valid_loan` once both instants are at hand: the
`end_date < start_date` constraint check (whose error message subscripts
`loan['end_date']`, hence `KeyError` when that key is absent), the bare
`assert` of the validation policy, and the ISO serialisation of both dates.
Factored out of `ensure_valid_loan` because the source reaches it both with a
supplied and with a derived end date. -/
def checkRange (ctx : Ctx) (l : Loan) (s e : Int) : Loan × Option HardErr :=
  if e < s then
    (l, some (if l.end_date = .absent then .keyError else .constraintsViolation))
  else
    match ctx.validate l s e with
    | .error er => (l, some er)
    | .ok b =>
      if b then
        ({ l with start_date := .str (.iso s), end_date := .str (.iso e) }, none)
      else
        (l, some .assertionError)

/-- `transitions.transitions._ensure_valid_loan`: default the start date to the
transaction date (subscripting `loan['transaction_date']` first), derive a
missing end date from the duration policy, then run `checkRange`.  A `None`
start date makes the arithmetic or the comparison raise `TypeError`.  Returns
the (partially) mutated loan with the outcome. -/
def ensure_valid_loan (ctx : Ctx) (loan : Loan) : Loan × Option HardErr :=
  if loan.transaction_date = .absent then (loan, some .keyError) else
  match parse_date (setStart loan).start_date with
  | .error e => (setStart loan, some e)
  | .ok so =>
    match parse_date (setStart loan).end_date with
    | .error e => (setStart loan, some e)
    | .ok eo =>
      match eo, so with
      | some e, some s => checkRange ctx (setStart loan) s e
      | some _, none => (setStart loan, some .typeError)
      | none, none => (setStart loan, some .typeError)
      | none, some s =>
        checkRange ctx (setStart loan) s
          (s + ctx.durationDefault (setStart loan) * daySecs)

/-- The per-edge behaviour selector: `Transition` itself or one of the six
concrete subclasses of `transitions/transitions.py`. -/
inductive Impl
  | base
  | createdToPending
  | createdToItemOnLoan
  | pendingToItemAtDesk
  | pendingToItemInTransitPickup
  | itemAtDeskToItemOnLoan
  | itemOnLoanToItemInTransitHouse
  | itemOnLoanToItemReturned
deriving DecidableEq, Repr

/-- A constructed `Transition` instance: `self.src`, `self.dest`,
`self.trigger` (default `'next'`) and its behaviour class. -/
structure Trans where
  src : String
  dest : String
  trigger : String
  impl : Impl
deriving DecidableEq, Repr

/-- Merge the call's keyword parameters into the loan dict (supplied keys
override, absent keys leave the loan unchanged). -/
def applyKwargs (loan : Loan) (kw : Kwargs) : Loan :=
  { loan with
    pickup_location_pid :=
      match kw.pickup_location_pid with
      | some v => some v
      | none => loan.pickup_location_pid
    transaction_location_pid :=
      match kw.transaction_location_pid with
      | some v => some v
      | none => loan.transaction_location_pid
    transaction_date :=
      match kw.transaction_date with
      | .absent => loan.transaction_date
      | d => d
    start_date :=
      match kw.start_date with
      | .absent => loan.start_date
      | d => d
    end_date :=
      match kw.end_date with
      | .absent => loan.end_date
      | d => d }

/-- Modelled from the spec: `transitions/base.py` is absent from `src/`.
Per spec sections 4.2 and 8 (and the behaviour the tests pin down), the base
`Transition.before` soft-rejects (`TransitionConditionsFailed`) when the
call's trigger name — defaulting to `'next'` — differs from the transition's
trigger name, and otherwise copies the supplied action parameters onto the
loan. -/
def baseBefore (t : Trans) (loan : Loan) (kw : Kwargs) : Loan × Option BFail :=
  if kw.trigger.getD "next" = t.trigger then (applyKwargs loan kw, none)
  else (loan, some .soft)

/-- `dt` wrapping of a parse result (`parse_date` of a present field never
yields `none`; the `absent` arm is dead code kept for totality). -/
def dtOf : Option Int → DateField
  | some t => .dt t
  | none => .absent

/-- The body of each concrete `before` after the `super().before` call, from
`transitions/transitions.py`.  `itemAtDeskToItemOnLoan` ends by calling
`_ensure_valid_loan_duration`, a name defined nowhere in the module and not
imported, so after parsing the dates it raises `NameError`. -/
def guardStep (t : Trans) (ctx : Ctx) (l : Loan) : Loan × Option BFail :=
  match t.impl with
  | .base => (l, none)
  | .createdToPending =>
    if optFalsy l.pickup_location_pid then
      match l.item_pid with
      | none => (l, some (.hard .keyError))
      | some item => ({ l with pickup_location_pid := ctx.itemLocation item }, none)
    else (l, none)
  | .createdToItemOnLoan =>
    match ensure_valid_loan ctx l with
    | (l', none) => (l', none)
    | (l', some e) => (l', some (.hard e))
  | .pendingToItemAtDesk =>
    match l.item_pid, l.pickup_location_pid with
    | none, _ => (l, some (.hard .keyError))
    | some _, none => (l, some (.hard .keyError))
    | some item, some pickup =>
      if is_same_location ctx item pickup then (l, none) else (l, some .soft)
  | .pendingToItemInTransitPickup =>
    match l.item_pid, l.pickup_location_pid with
    | none, _ => (l, some (.hard .keyError))
    | some _, none => (l, some (.hard .keyError))
    | some item, some pickup =>
      if is_same_location ctx item pickup then (l, some .soft) else (l, none)
  | .itemAtDeskToItemOnLoan =>
    match (if l.start_date = .absent then Except.ok l else
            (parse_date l.start_date).map (fun so => { l with start_date := dtOf so })) with
    | .error e => (l, some (.hard e))
    | .ok l1 =>
      match (if l1.end_date = .absent then Except.ok l1 else
              (parse_date l1.end_date).map (fun eo => { l1 with end_date := dtOf eo })) with
      | .error e => (l1, some (.hard e))
      | .ok l2 => (l2, some (.hard .nameError))
  | .itemOnLoanToItemInTransitHouse =>
    match l.item_pid, l.transaction_location_pid with
    | none, _ => (l, some (.hard .keyError))
    | some _, none => (l, some (.hard .keyError))
    | some item, some tloc =>
      if is_same_location ctx item tloc then (l, some .soft)
      else if l.transaction_date = .absent then (l, some (.hard .keyError))
      else ({ l with end_date := l.transaction_date }, none)
  | .itemOnLoanToItemReturned =>
    match l.item_pid, l.transaction_location_pid with
    | none, _ => (l, some (.hard .keyError))
    | some _, none => (l, some (.hard .keyError))
    | some item, some tloc =>
      if is_same_location ctx item tloc then
        if l.transaction_date = .absent then (l, some (.hard .keyError))
        else ({ l with end_date := l.transaction_date }, none)
      else (l, some .soft)

/-- A transition's full `before`: the base step then the subclass body. -/
def before (t : Trans) (ctx : Ctx) (loan : Loan) (kw : Kwargs) : Loan × Option BFail :=
  match baseBefore t loan kw with
  | (l, some f) => (l, some f)
  | (l, none) => guardStep t ctx l

/-- `Transition.execute`: run `before`, commit `loan['state'] = self.dest`,
run `after` (every `after` in `src/` only calls `super()`, a no-op here). -/
def execute (t : Trans) (ctx : Ctx) (loan : Loan) (kw : Kwargs) : Loan × Outcome :=
  match before t ctx loan kw with
  | (l, some .soft) => (l, .soft)
  | (l, some (.hard e)) => (l, .hard e)
  | (l, none) => ({ l with state := some t.dest }, .ok)

/-- The engine loop of `_Circulation.trigger`: try candidates in table order;
a soft failure (`TransitionValidationFailed`) is caught and the loop continues
with the (in-place mutated) loan; success and hard errors return
immediately; an exhausted list raises `NoValidTransitionAvailable`. -/
def loopT (ctx : Ctx) (kw : Kwargs) : List Trans → Loan → Loan × Option HardErr
  | [], loan => (loan, some .noValidTransitionAvailable)
  | t :: ts, loan =>
    match execute t ctx loan kw with
    | (l, .ok) => (l, none)
    | (l, .soft) => loopT ctx kw ts l
    | (l, .hard e) => (l, some e)

/-- Association-list lookup (the `self.transitions` dict). -/
def lookupT {α : Type} (s : String) : List (String × α) → Option α
  | [] => none
  | (k, v) :: rest => if k = s then some v else lookupT s rest

/-- `_Circulation.trigger` over an explicit transition table: validate the
current state, then run the candidate loop. -/
def triggerT (ctx : Ctx) (table : List (String × List Trans)) (loan : Loan)
    (kw : Kwargs) : Loan × Option HardErr :=
  match loan.state with
  | none => (loan, some .invalidState)
  | some s =>
    match lookupT s table with
    | none => (loan, some .invalidState)
    | some ts => loopT ctx kw ts loan

/-- One entry of `CIRCULATION_LOAN_TRANSITIONS`: the `dest`, optional
`trigger` and optional `transition` keys of the config dict (`none` models an
absent key). -/
structure TransSpec where
  dest : String
  trigger : Option String := none
  transition : Option Impl := none
deriving DecidableEq, Repr

/-- `config.CIRCULATION_LOAN_TRANSITIONS`, verbatim. -/
def CIRCULATION_LOAN_TRANSITIONS : List (String × List TransSpec) :=
  [ ("CREATED",
      [ { dest := "PENDING", trigger := some "request", transition := some .createdToPending },
        { dest := "ITEM_ON_LOAN", trigger := some "checkout", transition := some .createdToItemOnLoan } ]),
    ("PENDING",
      [ { dest := "ITEM_AT_DESK", transition := some .pendingToItemAtDesk },
        { dest := "ITEM_IN_TRANSIT_FOR_PICKUP", transition := some .pendingToItemInTransitPickup },
        { dest := "CANCELLED", trigger := some "cancel" } ]),
    ("ITEM_AT_DESK",
      [ { dest := "ITEM_ON_LOAN", transition := some .itemAtDeskToItemOnLoan },
        { dest := "CANCELLED", trigger := some "cancel" } ]),
    ("ITEM_IN_TRANSIT_FOR_PICKUP",
      [ { dest := "ITEM_AT_DESK" },
        { dest := "CANCELLED", trigger := some "cancel" } ]),
    ("ITEM_ON_LOAN",
      [ { dest := "ITEM_RETURNED", transition := some .itemOnLoanToItemReturned },
        { dest := "ITEM_IN_TRANSIT_TO_HOUSE", transition := some .itemOnLoanToItemInTransitHouse },
        { dest := "CANCELLED", trigger := some "cancel" } ]),
    ("ITEM_IN_TRANSIT_TO_HOUSE",
      [ { dest := "ITEM_RETURNED" },
        { dest := "CANCELLED", trigger := some "cancel" } ]),
    ("ITEM_RETURNED", []),
    ("CANCELLED", []) ]

/-- The inner loop of `_Circulation.__init__` for one source state: for each
spec dict `t`, pop `'transition'` (default `Transition`, mutating `t`), and
instantiate `_cls(**dict(t, src=src_state))` (trigger defaults to `'next'`).
Returns the instances and the popped (mutated) spec dicts. -/
def initEntry (src : String) : List TransSpec → List Trans × List TransSpec
  | [] => ([], [])
  | t :: ts =>
    let impl := t.transition.getD .base
    let popped : TransSpec := { t with transition := none }
    let inst : Trans := ⟨src, t.dest, t.trigger.getD "next", impl⟩
    let (is, ps) := initEntry src ts
    (inst :: is, popped :: ps)

/-- `_Circulation.__init__` over a config whose source-state keys are
distinct (as in `CIRCULATION_LOAN_TRANSITIONS`): builds `self.transitions`
and returns it together with the post-construction state of the argument
(whose per-edge dicts have had their `'transition'` key popped). -/
def circInit : List (String × List TransSpec) →
    List (String × List Trans) × List (String × List TransSpec)
  | [] => ([], [])
  | (src, ts) :: rest =>
    let (is, ps) := initEntry src ts
    let (tbl, cfg) := circInit rest
    ((src, is) :: tbl, (src, ps) :: cfg)

/-- The transition table of the engine built from the default configuration. -/
def circulationTable : List (String × List Trans) :=
  (circInit CIRCULATION_LOAN_TRANSITIONS).1

/-- `current_circulation.circulation.trigger` under the default transition
table (collaborators still injected through `ctx`). -/
def trigger (ctx : Ctx) (loan : Loan) (kw : Kwargs) : Loan × Option HardErr :=
  triggerT ctx circulationTable loan kw

/-- `config.CIRCULATION_STATES_ITEM_AVAILABLE`, verbatim. -/
def CIRCULATION_STATES_ITEM_AVAILABLE : List String := ["ITEM_RETURNED"]

/-- Modelled from the spec: the item-availability predicate of `api.py` is
absent from `src/` (only the policy stub in `utils.py` and the state list in
`config.py` are present).  Per spec section 6, it queries the loans of the
item and the item is available exactly when no loan is in a state outside
`CIRCULATION_STATES_ITEM_AVAILABLE` (an item with no loans is available). -/
def is_item_available (loanStates : List String) : Bool :=
  loanStates.all (fun s => s ∈ CIRCULATION_STATES_ITEM_AVAILABLE)

/-! ## Concrete sample data (used by witnesses) -/

/-- A freshly created loan, as `Loan.create` would initialise it. -/
def loanCreated : Loan :=
  { state := some "CREATED", item_pid := some "item1", patron_pid := some "patron1" }

/-- Checkout call parameters with only a transaction date supplied. -/
def kwCheckout : Kwargs :=
  { trigger := some "checkout", transaction_date := .str (.iso 0) }

/-- Checkout call parameters with an inverted date range. -/
def kwCheckoutBadRange : Kwargs :=
  { trigger := some "checkout", transaction_date := .str (.iso 0),
    start_date := .str (.iso 1000), end_date := .str (.iso 500) }

/-- Collaborators whose location retriever always answers the given pid. -/
def ctxAt (loc : String) : Ctx :=
  ⟨fun _ => some loc, get_default_loan_duration, is_loan_valid⟩

/-- A pending loan with its pickup location set. -/
def loanPending : Loan :=
  { state := some "PENDING", item_pid := some "item1",
    pickup_location_pid := some "pickup1" }

/-- An automatic (trigger-less) call with only a transaction date. -/
def kwAuto : Kwargs := { transaction_date := .str (.iso 0) }

/-- A loan currently on loan. -/
def loanOnLoan : Loan :=
  { state := some "ITEM_ON_LOAN", item_pid := some "item1",
    start_date := .str (.iso 0), end_date := .str (.iso 100) }

/-- A check-in call at location `home`. -/
def kwCheckin : Kwargs :=
  { transaction_date := .str (.iso 777), transaction_location_pid := some "home" }

/-- A loan waiting at the pickup desk with valid dates. -/
def loanAtDesk : Loan :=
  { state := some "ITEM_AT_DESK", item_pid := some "item1",
    start_date := .str (.iso 100), end_date := .str (.iso 200) }

/-- Collaborators whose validation policy returns `False` without raising. -/
def ctxFalsyValidate : Ctx :=
  ⟨fun _ => none, get_default_loan_duration, fun _ _ _ => .ok false⟩

/-- The constructed checkout transition instance. -/
def checkoutTrans : Trans := ⟨"CREATED", "ITEM_ON_LOAN", "checkout", .createdToItemOnLoan⟩

/-- The constructed request transition instance. -/
def requestTrans : Trans := ⟨"CREATED", "PENDING", "request", .createdToPending⟩

/-- The constructed PENDING→ITEM_AT_DESK instance. -/
def pendAtDeskTrans : Trans := ⟨"PENDING", "ITEM_AT_DESK", "next", .pendingToItemAtDesk⟩

/-- The constructed PENDING→ITEM_IN_TRANSIT_FOR_PICKUP instance. -/
def pendTransitTrans : Trans :=
  ⟨"PENDING", "ITEM_IN_TRANSIT_FOR_PICKUP", "next", .pendingToItemInTransitPickup⟩

/-- The constructed PENDING→CANCELLED instance. -/
def pendCancelTrans : Trans := ⟨"PENDING", "CANCELLED", "cancel", .base⟩

/-- The constructed ITEM_ON_LOAN→ITEM_RETURNED instance. -/
def onLoanReturnedTrans : Trans :=
  ⟨"ITEM_ON_LOAN", "ITEM_RETURNED", "next", .itemOnLoanToItemReturned⟩

/-- The constructed ITEM_ON_LOAN→ITEM_IN_TRANSIT_TO_HOUSE instance. -/
def onLoanTransitTrans : Trans :=
  ⟨"ITEM_ON_LOAN", "ITEM_IN_TRANSIT_TO_HOUSE", "next", .itemOnLoanToItemInTransitHouse⟩

/-- The constructed ITEM_ON_LOAN→CANCELLED instance. -/
def onLoanCancelTrans : Trans := ⟨"ITEM_ON_LOAN", "CANCELLED", "cancel", .base⟩

/-- The constructed ITEM_AT_DESK→ITEM_ON_LOAN instance. -/
def atDeskCheckoutTrans : Trans :=
  ⟨"ITEM_AT_DESK", "ITEM_ON_LOAN", "next", .itemAtDeskToItemOnLoan⟩

/-! ## General lemmas about the engine -/

/-- On success, `execute` has committed the transition's destination state. -/
theorem execute_ok_state {t : Trans} {ctx : Ctx} {l : Loan} {kw : Kwargs} {l' : Loan}
    (h : execute t ctx l kw = (l', .ok)) : l'.state = some t.dest := by
  unfold execute at h
  rcases hb : before t ctx l kw with ⟨l₀, f⟩
  rw [hb] at h
  match f with
  | some .soft => simp at h
  | some (.hard e) => simp at h
  | none =>
    simp only [Prod.mk.injEq] at h
    rw [← h.1]

/-- A successful engine loop committed the destination of some candidate in
the list. -/
theorem loopT_ok_mem {ctx : Ctx} {kw : Kwargs} :
    ∀ (ts : List Trans) (l l' : Loan),
      loopT ctx kw ts l = (l', none) → ∃ t ∈ ts, l'.state = some t.dest := by
  intro ts
  induction ts with
  | nil => intro l l' h; simp [loopT] at h
  | cons t ts ih =>
    intro l l' h
    unfold loopT at h
    rcases he : execute t ctx l kw with ⟨l₀, o⟩
    rw [he] at h
    match o with
    | .ok =>
      simp only [Prod.mk.injEq] at h
      exact ⟨t, List.mem_cons_self t ts, h.1 ▸ execute_ok_state he⟩
    | .soft =>
      obtain ⟨t', ht', hs⟩ := ih l₀ l' h
      exact ⟨t', List.mem_cons_of_mem t ht', hs⟩
    | .hard e => simp at h

/-- A successful dict lookup yields a member of the association list. -/
theorem lookupT_mem {α : Type} {s : String} :
    ∀ {table : List (String × α)} {v : α},
      lookupT s table = some v → (s, v) ∈ table := by
  intro table
  induction table with
  | nil => intro v h; simp [lookupT] at h
  | cons p rest ih =>
    intro v h
    obtain ⟨k, w⟩ := p
    unfold lookupT at h
    split at h
    · next heq =>
      injection h with h'
      subst heq; subst h'
      exact List.mem_cons_self _ _
    · exact List.mem_cons_of_mem _ (ih h)

/-- The constructed engine table, evaluated. -/
theorem circulationTable_eq :
    circulationTable =
      [ ("CREATED",
          [ ⟨"CREATED", "PENDING", "request", .createdToPending⟩,
            ⟨"CREATED", "ITEM_ON_LOAN", "checkout", .createdToItemOnLoan⟩ ]),
        ("PENDING",
          [ ⟨"PENDING", "ITEM_AT_DESK", "next", .pendingToItemAtDesk⟩,
            ⟨"PENDING", "ITEM_IN_TRANSIT_FOR_PICKUP", "next", .pendingToItemInTransitPickup⟩,
            ⟨"PENDING", "CANCELLED", "cancel", .base⟩ ]),
        ("ITEM_AT_DESK",
          [ ⟨"ITEM_AT_DESK", "ITEM_ON_LOAN", "next", .itemAtDeskToItemOnLoan⟩,
            ⟨"ITEM_AT_DESK", "CANCELLED", "cancel", .base⟩ ]),
        ("ITEM_IN_TRANSIT_FOR_PICKUP",
          [ ⟨"ITEM_IN_TRANSIT_FOR_PICKUP", "ITEM_AT_DESK", "next", .base⟩,
            ⟨"ITEM_IN_TRANSIT_FOR_PICKUP", "CANCELLED", "cancel", .base⟩ ]),
        ("ITEM_ON_LOAN",
          [ ⟨"ITEM_ON_LOAN", "ITEM_RETURNED", "next", .itemOnLoanToItemReturned⟩,
            ⟨"ITEM_ON_LOAN", "ITEM_IN_TRANSIT_TO_HOUSE", "next", .itemOnLoanToItemInTransitHouse⟩,
            ⟨"ITEM_ON_LOAN", "CANCELLED", "cancel", .base⟩ ]),
        ("ITEM_IN_TRANSIT_TO_HOUSE",
          [ ⟨"ITEM_IN_TRANSIT_TO_HOUSE", "ITEM_RETURNED", "next", .base⟩,
            ⟨"ITEM_IN_TRANSIT_TO_HOUSE", "CANCELLED", "cancel", .base⟩ ]),
        ("ITEM_RETURNED", []),
        ("CANCELLED", []) ] := by
  rfl

/-- `trigger` reduces to the loop over the looked-up candidate list. -/
theorem trigger_eq_loop (ctx : Ctx) (loan : Loan) (kw : Kwargs) (s : String)
    (ts : List Trans) (hs : loan.state = some s)
    (hl : lookupT s circulationTable = some ts) :
    trigger ctx loan kw = loopT ctx kw ts loan := by
  simp only [trigger, triggerT, hs, hl]

/-- Candidate list of CREATED. -/
theorem lookup_created :
    lookupT "CREATED" circulationTable = some [requestTrans, checkoutTrans] := rfl

/-- Candidate list of PENDING. -/
theorem lookup_pending :
    lookupT "PENDING" circulationTable =
      some [pendAtDeskTrans, pendTransitTrans, pendCancelTrans] := rfl

/-- Candidate list of ITEM_ON_LOAN. -/
theorem lookup_onloan :
    lookupT "ITEM_ON_LOAN" circulationTable =
      some [onLoanReturnedTrans, onLoanTransitTrans, onLoanCancelTrans] := rfl

/-- Candidate list of ITEM_AT_DESK. -/
theorem lookup_atdesk :
    lookupT "ITEM_AT_DESK" circulationTable =
      some [atDeskCheckoutTrans, ⟨"ITEM_AT_DESK", "CANCELLED", "cancel", .base⟩] := rfl

/-- Merging the same call parameters twice is the same as merging them once. -/
theorem applyKwargs_idem (l : Loan) (kw : Kwargs) :
    applyKwargs (applyKwargs l kw) kw = applyKwargs l kw := by
  unfold applyKwargs
  rcases kw with ⟨tr, pk, tl, td, sd, ed⟩
  cases pk <;> cases tl <;> cases td <;> cases sd <;> cases ed <;> rfl

/-- The parameter merge never touches the state field. -/
theorem applyKwargs_state (l : Loan) (kw : Kwargs) :
    (applyKwargs l kw).state = l.state := rfl

/-- The parameter merge never touches the item pid. -/
theorem applyKwargs_item (l : Loan) (kw : Kwargs) :
    (applyKwargs l kw).item_pid = l.item_pid := rfl

/-- The `start_date` default never touches the state field. -/
theorem setStart_state (l : Loan) : (setStart l).state = l.state := by
  unfold setStart
  split <;> rfl

/-- The `start_date` default never touches the end date. -/
theorem setStart_end (l : Loan) : (setStart l).end_date = l.end_date := by
  unfold setStart
  split <;> rfl

/-- The `start_date` default never touches the transaction date. -/
theorem setStart_tdate (l : Loan) :
    (setStart l).transaction_date = l.transaction_date := by
  unfold setStart
  split <;> rfl

/-- Inversion of a successful `trigger`: the state was present, its candidate
list was found, and the loop succeeded on it. -/
theorem triggerT_ok_inv {ctx : Ctx} {table : List (String × List Trans)}
    {loan : Loan} {kw : Kwargs} {loan' : Loan}
    (h : triggerT ctx table loan kw = (loan', none)) :
    ∃ s ts, loan.state = some s ∧ lookupT s table = some ts ∧
      loopT ctx kw ts loan = (loan', none) := by
  unfold triggerT at h
  split at h
  · exact absurd h (by simp)
  · split at h
    · exact absurd h (by simp)
    · exact ⟨_, _, by assumption, by assumption, h⟩

/-- The declared edges of the default transition table, as (source,
destination) pairs. -/
def declaredEdges : List (String × String) :=
  [ ("CREATED", "PENDING"), ("CREATED", "ITEM_ON_LOAN"),
    ("PENDING", "ITEM_AT_DESK"), ("PENDING", "ITEM_IN_TRANSIT_FOR_PICKUP"),
    ("PENDING", "CANCELLED"),
    ("ITEM_AT_DESK", "ITEM_ON_LOAN"), ("ITEM_AT_DESK", "CANCELLED"),
    ("ITEM_IN_TRANSIT_FOR_PICKUP", "ITEM_AT_DESK"),
    ("ITEM_IN_TRANSIT_FOR_PICKUP", "CANCELLED"),
    ("ITEM_ON_LOAN", "ITEM_RETURNED"), ("ITEM_ON_LOAN", "ITEM_IN_TRANSIT_TO_HOUSE"),
    ("ITEM_ON_LOAN", "CANCELLED"),
    ("ITEM_IN_TRANSIT_TO_HOUSE", "ITEM_RETURNED"),
    ("ITEM_IN_TRANSIT_TO_HOUSE", "CANCELLED") ]

/-! ## Claim theorems -/

/-- C1: for every loan and every call to `trigger`, at most one transition is
applied — the engine loop returns immediately after the first candidate whose
guard succeeds — and on success the loan's resulting state is one of the
destinations declared for the loan's pre-call state in
`CIRCULATION_LOAN_TRANSITIONS` (CREATED→{PENDING, ITEM_ON_LOAN};
PENDING→{ITEM_AT_DESK, ITEM_IN_TRANSIT_FOR_PICKUP, CANCELLED};
ITEM_AT_DESK→{ITEM_ON_LOAN, CANCELLED};
ITEM_IN_TRANSIT_FOR_PICKUP→{ITEM_AT_DESK, CANCELLED};
ITEM_ON_LOAN→{ITEM_RETURNED, ITEM_IN_TRANSIT_TO_HOUSE, CANCELLED};
ITEM_IN_TRANSIT_TO_HOUSE→{ITEM_RETURNED, CANCELLED}; none for the terminal
states). -/
theorem c1_trigger_applies_one_declared_transition :
    (∀ (ctx : Ctx) (loan : Loan) (kw : Kwargs) (loan' : Loan),
        trigger ctx loan kw = (loan', none) →
        ∃ s d, loan.state = some s ∧ loan'.state = some d ∧ (s, d) ∈ declaredEdges) ∧
    (∀ (ctx : Ctx) (kw : Kwargs) (t : Trans) (ts : List Trans) (l l₂ : Loan),
        execute t ctx l kw = (l₂, .ok) →
        loopT ctx kw (t :: ts) l = (l₂, none)) := by
  constructor
  · intro ctx loan kw loan' h
    obtain ⟨s, ts, hst, hlk, h⟩ := triggerT_ok_inv h
    obtain ⟨t, htm, hdest⟩ := loopT_ok_mem ts loan loan' h
    have htable : ∀ p ∈ circulationTable, ∀ t2 ∈ p.2,
        (p.1, t2.dest) ∈ declaredEdges := by decide
    exact ⟨s, t.dest, hst, hdest, htable (s, ts) (lookupT_mem hlk) t htm⟩
  · intro ctx kw t ts l l₂ h
    simp only [loopT]
    rw [h]

/-- Witness for C1: a successful automatic call on a pending loan whose item
is already at the pickup location lands in a declared destination. -/
theorem c1_witness :
    ∃ s d, loanPending.state = some s ∧
      (trigger (ctxAt "pickup1") loanPending kwAuto).1.state = some d ∧
      (s, d) ∈ declaredEdges :=
  c1_trigger_applies_one_declared_transition.1 (ctxAt "pickup1") loanPending kwAuto
    (trigger (ctxAt "pickup1") loanPending kwAuto).1 rfl

/-- C2: a soft rejection (`TransitionConditionsFailed`) raised by a
candidate's guard is caught inside the engine loop and only causes evaluation
to continue with the next candidate; a hard rejection
(`TransitionConstraintsViolation` or another policy violation) raised by a
guard makes the loop — and hence `trigger`, which runs the loop on the looked
up candidate list — return that very error with no further candidate tried. -/
theorem c2_soft_caught_hard_propagates :
    (∀ (ctx : Ctx) (kw : Kwargs) (t : Trans) (ts : List Trans) (loan l : Loan),
        execute t ctx loan kw = (l, .soft) →
        loopT ctx kw (t :: ts) loan = loopT ctx kw ts l) ∧
    (∀ (ctx : Ctx) (kw : Kwargs) (t : Trans) (ts : List Trans) (loan l : Loan) (e : HardErr),
        execute t ctx loan kw = (l, .hard e) →
        loopT ctx kw (t :: ts) loan = (l, some e)) ∧
    (∀ (ctx : Ctx) (loan : Loan) (kw : Kwargs) (s : String) (ts : List Trans),
        loan.state = some s → lookupT s circulationTable = some ts →
        trigger ctx loan kw = loopT ctx kw ts loan) := by
  refine ⟨?_, ?_, ?_⟩
  · intro ctx kw t ts loan l h
    simp only [loopT]
    rw [h]
  · intro ctx kw t ts loan l e h
    simp only [loopT]
    rw [h]
  · intro ctx loan kw s ts hs hl
    simp only [trigger, triggerT, hs, hl]

/-- Witness for C2: a checkout whose guard hard-fails with
`TransitionConstraintsViolation` makes the loop return exactly that error. -/
theorem c2_witness :
    loopT defaultCtx kwCheckoutBadRange [checkoutTrans] loanCreated =
      ((execute checkoutTrans defaultCtx loanCreated kwCheckoutBadRange).1,
        some .constraintsViolation) :=
  c2_soft_caught_hard_propagates.2.1 defaultCtx kwCheckoutBadRange checkoutTrans []
    loanCreated (execute checkoutTrans defaultCtx loanCreated kwCheckoutBadRange).1
    .constraintsViolation rfl

/-- C3: an automatic `trigger` call on a PENDING loan (item and pickup
location set) commits ITEM_AT_DESK exactly when the item's current location
equals `pickup_location_pid`, and ITEM_IN_TRANSIT_FOR_PICKUP exactly when it
does not: the two guards are complementary, so exactly one of the two
outcomes occurs. -/
theorem c3_pending_guards_complementary (ctx : Ctx) (loan : Loan) (kw : Kwargs)
    (i p : String)
    (hstate : loan.state = some "PENDING")
    (htr : kw.trigger = none)
    (hitem : loan.item_pid = some i)
    (hpick : (applyKwargs loan kw).pickup_location_pid = some p) :
    (ctx.itemLocation i = some p →
      trigger ctx loan kw =
        ({ applyKwargs loan kw with state := some "ITEM_AT_DESK" }, none)) ∧
    (ctx.itemLocation i ≠ some p →
      trigger ctx loan kw =
        ({ applyKwargs loan kw with state := some "ITEM_IN_TRANSIT_FOR_PICKUP" }, none)) := by
  have hitem' : (applyKwargs loan kw).item_pid = some i := by
    rw [applyKwargs_item, hitem]
  constructor
  · intro hloc
    rw [trigger_eq_loop ctx loan kw "PENDING" _ hstate lookup_pending]
    have h1 : execute pendAtDeskTrans ctx loan kw =
        ({ applyKwargs loan kw with state := some "ITEM_AT_DESK" }, .ok) := by
      simp [execute, before, baseBefore, guardStep, pendAtDeskTrans, htr,
        hitem', hpick, is_same_location, hloc]
    simp only [loopT, h1]
  · intro hloc
    rw [trigger_eq_loop ctx loan kw "PENDING" _ hstate lookup_pending]
    have hbeq : (ctx.itemLocation i == some p) = false := by
      simpa using hloc
    have h1 : execute pendAtDeskTrans ctx loan kw = (applyKwargs loan kw, .soft) := by
      simp [execute, before, baseBefore, guardStep, pendAtDeskTrans, htr,
        hitem', hpick, is_same_location, hbeq]
    have hitem2 : (applyKwargs (applyKwargs loan kw) kw).item_pid = some i := by
      rw [applyKwargs_idem]; exact hitem'
    have hpick2 : (applyKwargs (applyKwargs loan kw) kw).pickup_location_pid = some p := by
      rw [applyKwargs_idem]; exact hpick
    have h2 : execute pendTransitTrans ctx (applyKwargs loan kw) kw =
        ({ applyKwargs loan kw with state := some "ITEM_IN_TRANSIT_FOR_PICKUP" }, .ok) := by
      simp [execute, before, baseBefore, guardStep, pendTransitTrans, htr,
        hitem', hpick, is_same_location, hbeq, applyKwargs_idem]
    simp only [loopT, h1, h2]

/-- Witness for C3: with the item already at `pickup1`, the pending loan goes
to ITEM_AT_DESK. -/
theorem c3_witness :
    trigger (ctxAt "pickup1") loanPending kwAuto =
      ({ applyKwargs loanPending kwAuto with state := some "ITEM_AT_DESK" }, none) :=
  (c3_pending_guards_complementary (ctxAt "pickup1") loanPending kwAuto
    "item1" "pickup1" rfl rfl rfl rfl).1 rfl

/-- C4: a check-in `trigger` call on an ITEM_ON_LOAN loan commits
ITEM_RETURNED when `transaction_location_pid` equals the item's belonging
location and ITEM_IN_TRANSIT_TO_HOUSE when it does not; in both cases the
loan's `end_date` is set to `transaction_date`. -/
theorem c4_checkin_by_location (ctx : Ctx) (loan : Loan) (kw : Kwargs)
    (i tl : String) (td : DateField)
    (hstate : loan.state = some "ITEM_ON_LOAN")
    (htr : kw.trigger = none)
    (hitem : loan.item_pid = some i)
    (htl : (applyKwargs loan kw).transaction_location_pid = some tl)
    (htd : (applyKwargs loan kw).transaction_date = td)
    (htda : td ≠ .absent) :
    (ctx.itemLocation i = some tl →
      trigger ctx loan kw =
        ({ applyKwargs loan kw with end_date := td, state := some "ITEM_RETURNED" }, none)) ∧
    (ctx.itemLocation i ≠ some tl →
      trigger ctx loan kw =
        ({ applyKwargs loan kw with
            end_date := td, state := some "ITEM_IN_TRANSIT_TO_HOUSE" }, none)) := by
  have hitem' : (applyKwargs loan kw).item_pid = some i := by
    rw [applyKwargs_item, hitem]
  constructor
  · intro hloc
    rw [trigger_eq_loop ctx loan kw "ITEM_ON_LOAN" _ hstate lookup_onloan]
    have h1 : execute onLoanReturnedTrans ctx loan kw =
        ({ applyKwargs loan kw with end_date := td, state := some "ITEM_RETURNED" }, .ok) := by
      simp [execute, before, baseBefore, guardStep, onLoanReturnedTrans, htr,
        hitem', htl, htd, htda, is_same_location, hloc]
    simp only [loopT, h1]
  · intro hloc
    rw [trigger_eq_loop ctx loan kw "ITEM_ON_LOAN" _ hstate lookup_onloan]
    have hbeq : (ctx.itemLocation i == some tl) = false := by
      simpa using hloc
    have h1 : execute onLoanReturnedTrans ctx loan kw = (applyKwargs loan kw, .soft) := by
      simp [execute, before, baseBefore, guardStep, onLoanReturnedTrans, htr,
        hitem', htl, is_same_location, hbeq]
    have hitem2 : (applyKwargs (applyKwargs loan kw) kw).item_pid = some i := by
      rw [applyKwargs_idem]; exact hitem'
    have htl2 : (applyKwargs (applyKwargs loan kw) kw).transaction_location_pid = some tl := by
      rw [applyKwargs_idem]; exact htl
    have htd2 : (applyKwargs (applyKwargs loan kw) kw).transaction_date = td := by
      rw [applyKwargs_idem]; exact htd
    have h2 : execute onLoanTransitTrans ctx (applyKwargs loan kw) kw =
        ({ applyKwargs loan kw with
            end_date := td, state := some "ITEM_IN_TRANSIT_TO_HOUSE" }, .ok) := by
      simp [execute, before, baseBefore, guardStep, onLoanTransitTrans, htr,
        hitem', htl, htd, htda, is_same_location, hbeq, applyKwargs_idem]
    simp only [loopT, h1, h2]

/-- Witness for C4: a check-in at the item's belonging location returns the
item with `end_date` equal to the transaction date. -/
theorem c4_witness :
    trigger (ctxAt "home") loanOnLoan kwCheckin =
      ({ applyKwargs loanOnLoan kwCheckin with
          end_date := .str (.iso 777), state := some "ITEM_RETURNED" }, none) :=
  (c4_checkin_by_location (ctxAt "home") loanOnLoan kwCheckin "item1" "home"
    (.str (.iso 777)) rfl rfl rfl rfl rfl (by decide)).1 rfl

/-- C5: a checkout from CREATED whose supplied `end_date` parses to an
instant strictly earlier than `start_date` hard-fails with
`TransitionConstraintsViolation`, and the loan's `state` field is not
mutated: it remains CREATED. -/
theorem c5_checkout_inverted_range (ctx : Ctx) (loan : Loan) (kw : Kwargs)
    (s e : Int)
    (hstate : loan.state = some "CREATED")
    (htr : kw.trigger = some "checkout")
    (htd : ¬ (applyKwargs loan kw).transaction_date = .absent)
    (hs : parse_date (setStart (applyKwargs loan kw)).start_date = .ok (some s))
    (he : parse_date (applyKwargs loan kw).end_date = .ok (some e))
    (hlt : e < s) :
    trigger ctx loan kw =
      (setStart (applyKwargs loan kw), some .constraintsViolation) ∧
    (trigger ctx loan kw).1.state = some "CREATED" := by
  have hne : ¬ (applyKwargs loan kw).end_date = .absent := by
    intro hab
    rw [hab] at he
    simp [parse_date] at he
  have hev : ensure_valid_loan ctx (applyKwargs loan kw) =
      (setStart (applyKwargs loan kw), some .constraintsViolation) := by
    unfold ensure_valid_loan checkRange
    rw [if_neg htd]
    simp [setStart_end, hs, he, hlt, hne]
  have h1 : execute requestTrans ctx loan kw = (loan, .soft) := by
    simp [execute, before, baseBefore, requestTrans, htr]
  have h2 : execute checkoutTrans ctx loan kw =
      (setStart (applyKwargs loan kw), .hard .constraintsViolation) := by
    simp [execute, before, baseBefore, guardStep, checkoutTrans, htr, hev]
  have hmain : trigger ctx loan kw =
      (setStart (applyKwargs loan kw), some .constraintsViolation) := by
    rw [trigger_eq_loop ctx loan kw "CREATED" _ hstate lookup_created]
    simp only [loopT, h1, h2]
  refine ⟨hmain, ?_⟩
  rw [hmain]
  show (setStart (applyKwargs loan kw)).state = some "CREATED"
  rw [setStart_state, applyKwargs_state, hstate]

/-- Witness for C5: a checkout supplying `end_date` before `start_date`
fails with the constraint violation and leaves the state CREATED. -/
theorem c5_witness :
    trigger defaultCtx loanCreated kwCheckoutBadRange =
      (setStart (applyKwargs loanCreated kwCheckoutBadRange),
        some .constraintsViolation) ∧
    (trigger defaultCtx loanCreated kwCheckoutBadRange).1.state = some "CREATED" :=
  c5_checkout_inverted_range defaultCtx loanCreated kwCheckoutBadRange 1000 500
    rfl rfl (by decide) rfl rfl (by decide)

/-- C6: a checkout from CREATED with no `end_date` supplied, a `start_date`
equal to (or defaulted from) the transaction date, under the default 30-day
duration policy and the default validation policy, commits ITEM_ON_LOAN with
`end_date = start_date + 30 days`, both dates stored as ISO strings. -/
theorem c6_checkout_default_duration (f : String → Option String) (loan : Loan)
    (kw : Kwargs) (td : Int)
    (hstate : loan.state = some "CREATED")
    (htr : kw.trigger = some "checkout")
    (htd : (applyKwargs loan kw).transaction_date = .str (.iso td))
    (hsd : (applyKwargs loan kw).start_date = .absent ∨
           (applyKwargs loan kw).start_date = .str (.iso td))
    (hed : (applyKwargs loan kw).end_date = .absent) :
    (trigger ⟨f, get_default_loan_duration, is_loan_valid⟩ loan kw).2 = none ∧
    (trigger ⟨f, get_default_loan_duration, is_loan_valid⟩ loan kw).1.state =
      some "ITEM_ON_LOAN" ∧
    (trigger ⟨f, get_default_loan_duration, is_loan_valid⟩ loan kw).1.start_date =
      .str (.iso td) ∧
    (trigger ⟨f, get_default_loan_duration, is_loan_valid⟩ loan kw).1.end_date =
      .str (.iso (td + 30 * daySecs)) := by
  have htdne : ¬ (applyKwargs loan kw).transaction_date = .absent := by
    rw [htd]
    intro h
    cases h
  have hss : (setStart (applyKwargs loan kw)).start_date = .str (.iso td) := by
    rcases hsd with h | h
    · unfold setStart
      rw [if_pos h]
      exact htd
    · unfold setStart
      rw [if_neg (by rw [h]; intro hc; cases hc)]
      exact h
  have hnotlt : ¬ (td + 30 * daySecs < td) := by
    simp only [daySecs]
    omega
  have hnotgt : ¬ (td + 30 * daySecs - td > 60 * daySecs) := by
    simp only [daySecs]
    omega
  have hev : ensure_valid_loan ⟨f, get_default_loan_duration, is_loan_valid⟩
        (applyKwargs loan kw) =
      ({ setStart (applyKwargs loan kw) with
          start_date := .str (.iso td),
          end_date := .str (.iso (td + 30 * daySecs)) }, none) := by
    unfold ensure_valid_loan checkRange
    rw [if_neg htdne]
    simp [setStart_end, hss, hed, parse_date, get_default_loan_duration,
      is_loan_valid, hnotlt, hnotgt]
    norm_num [daySecs]
  have h1 : execute requestTrans ⟨f, get_default_loan_duration, is_loan_valid⟩
      loan kw = (loan, .soft) := by
    simp [execute, before, baseBefore, requestTrans, htr]
  have h2 : execute checkoutTrans ⟨f, get_default_loan_duration, is_loan_valid⟩
        loan kw =
      ({ { setStart (applyKwargs loan kw) with
            start_date := .str (.iso td),
            end_date := .str (.iso (td + 30 * daySecs)) } with
          state := some "ITEM_ON_LOAN" }, .ok) := by
    simp [execute, before, baseBefore, guardStep, checkoutTrans, htr, hev]
  have hmain : trigger ⟨f, get_default_loan_duration, is_loan_valid⟩ loan kw =
      ({ { setStart (applyKwargs loan kw) with
            start_date := .str (.iso td),
            end_date := .str (.iso (td + 30 * daySecs)) } with
          state := some "ITEM_ON_LOAN" }, none) := by
    rw [trigger_eq_loop _ loan kw "CREATED" _ hstate lookup_created]
    simp only [loopT, h1, h2]
  rw [hmain]
  exact ⟨rfl, rfl, rfl, rfl⟩

/-- Witness for C6: checking out `loanCreated` at transaction instant 0
yields ISO dates 0 and 30 days. -/
theorem c6_witness :
    (trigger ⟨item_location_retriever, get_default_loan_duration, is_loan_valid⟩
        loanCreated kwCheckout).2 = none ∧
    (trigger ⟨item_location_retriever, get_default_loan_duration, is_loan_valid⟩
        loanCreated kwCheckout).1.state = some "ITEM_ON_LOAN" ∧
    (trigger ⟨item_location_retriever, get_default_loan_duration, is_loan_valid⟩
        loanCreated kwCheckout).1.start_date = .str (.iso 0) ∧
    (trigger ⟨item_location_retriever, get_default_loan_duration, is_loan_valid⟩
        loanCreated kwCheckout).1.end_date = .str (.iso (0 + 30 * daySecs)) :=
  c6_checkout_default_duration item_location_retriever loanCreated kwCheckout 0
    rfl rfl rfl (Or.inl rfl) rfl

/-- C7 (code bug): the at-desk checkout does not perform the shared date
validation of the direct checkout: `ItemAtDeskToItemOnLoan.before` calls
`_ensure_valid_loan_duration`, a name defined nowhere in
`transitions/transitions.py` and not imported there, so after parsing the
dates every at-desk checkout raises `NameError`, while the direct checkout
from CREATED on the same date fields succeeds. -/
theorem c7_atdesk_checkout_raises_name_error :
    (trigger defaultCtx loanAtDesk kwAuto).2 = some .nameError ∧
    (trigger defaultCtx { loanAtDesk with state := some "CREATED" }
        kwCheckout).2 = none :=
  ⟨rfl, rfl⟩

/-- C8 counterexample: an item whose only loan is CANCELLED has every loan
in {ITEM_RETURNED, CANCELLED} — the claim calls it available — yet the
predicate reports it unavailable, since
`CIRCULATION_STATES_ITEM_AVAILABLE = ['ITEM_RETURNED']` excludes CANCELLED. -/
theorem c8_cancelled_loan_counterexample :
    (∀ st ∈ (["CANCELLED"] : List String),
        st = "ITEM_RETURNED" ∨ st = "CANCELLED") ∧
    is_item_available ["CANCELLED"] = false := by
  decide

/-- C8 amended: the predicate reports an item unavailable exactly when some
loan is in a state other than ITEM_RETURNED; in particular any loan in
PENDING, ITEM_ON_LOAN, ITEM_IN_TRANSIT_FOR_PICKUP or ITEM_AT_DESK (or
CANCELLED) makes it unavailable, while an item all of whose loans are
ITEM_RETURNED, or with no loan at all, is available. -/
theorem c8_availability_amended (ls : List String) :
    (is_item_available ls = false ↔ ∃ st ∈ ls, st ≠ "ITEM_RETURNED") ∧
    ((∃ st ∈ ls, st ∈ (["PENDING", "ITEM_ON_LOAN", "ITEM_IN_TRANSIT_FOR_PICKUP",
        "ITEM_AT_DESK"] : List String)) → is_item_available ls = false) ∧
    ((∀ st ∈ ls, st = "ITEM_RETURNED") → is_item_available ls = true) ∧
    is_item_available ([] : List String) = true := by
  have hchar : ∀ l2 : List String,
      is_item_available l2 = true ↔ ∀ st ∈ l2, st = "ITEM_RETURNED" := by
    intro l2
    simp [is_item_available, CIRCULATION_STATES_ITEM_AVAILABLE]
  have hfalse : is_item_available ls = false ↔ ∃ st ∈ ls, st ≠ "ITEM_RETURNED" := by
    rw [← Bool.not_eq_true, hchar]
    push_neg
    rfl
  refine ⟨hfalse, ?_, (hchar ls).mpr, rfl⟩
  rintro ⟨st, hmem, hin⟩
  refine hfalse.mpr ⟨st, hmem, ?_⟩
  simp only [List.mem_cons, List.not_mem_nil, or_false] at hin
  rcases hin with h | h | h | h <;> rw [h] <;> decide

/-- Witness for the amended C8: a single PENDING loan makes the item
unavailable. -/
theorem c8_witness : is_item_available ["PENDING"] = false :=
  (c8_availability_amended ["PENDING"]).2.1 ⟨"PENDING", by decide, by decide⟩

/-- C9 counterexample: `_Circulation.__init__` does not leave the passed
configuration structure unchanged — the per-edge descriptor dicts lose their
'transition' key. -/
theorem c9_init_mutates_config :
    (circInit CIRCULATION_LOAN_TRANSITIONS).2 ≠ CIRCULATION_LOAN_TRANSITIONS := by
  decide

/-- C9 amended: construction pops exactly the 'transition' key of each
per-edge descriptor of the configuration it is handed (keeping `dest` and
`trigger`), and transfers each descriptor faithfully into the engine table,
with the base behaviour and the 'next' trigger as defaults; the application's
caller-owned table is protected only because the `circulation` accessor
deep-copies it before calling the constructor. -/
theorem c9_init_table_and_popped_config :
    (circInit CIRCULATION_LOAN_TRANSITIONS).1 =
      [ ("CREATED",
          [ ⟨"CREATED", "PENDING", "request", .createdToPending⟩,
            ⟨"CREATED", "ITEM_ON_LOAN", "checkout", .createdToItemOnLoan⟩ ]),
        ("PENDING",
          [ ⟨"PENDING", "ITEM_AT_DESK", "next", .pendingToItemAtDesk⟩,
            ⟨"PENDING", "ITEM_IN_TRANSIT_FOR_PICKUP", "next", .pendingToItemInTransitPickup⟩,
            ⟨"PENDING", "CANCELLED", "cancel", .base⟩ ]),
        ("ITEM_AT_DESK",
          [ ⟨"ITEM_AT_DESK", "ITEM_ON_LOAN", "next", .itemAtDeskToItemOnLoan⟩,
            ⟨"ITEM_AT_DESK", "CANCELLED", "cancel", .base⟩ ]),
        ("ITEM_IN_TRANSIT_FOR_PICKUP",
          [ ⟨"ITEM_IN_TRANSIT_FOR_PICKUP", "ITEM_AT_DESK", "next", .base⟩,
            ⟨"ITEM_IN_TRANSIT_FOR_PICKUP", "CANCELLED", "cancel", .base⟩ ]),
        ("ITEM_ON_LOAN",
          [ ⟨"ITEM_ON_LOAN", "ITEM_RETURNED", "next", .itemOnLoanToItemReturned⟩,
            ⟨"ITEM_ON_LOAN", "ITEM_IN_TRANSIT_TO_HOUSE", "next", .itemOnLoanToItemInTransitHouse⟩,
            ⟨"ITEM_ON_LOAN", "CANCELLED", "cancel", .base⟩ ]),
        ("ITEM_IN_TRANSIT_TO_HOUSE",
          [ ⟨"ITEM_IN_TRANSIT_TO_HOUSE", "ITEM_RETURNED", "next", .base⟩,
            ⟨"ITEM_IN_TRANSIT_TO_HOUSE", "CANCELLED", "cancel", .base⟩ ]),
        ("ITEM_RETURNED", []),
        ("CANCELLED", []) ] ∧
    (circInit CIRCULATION_LOAN_TRANSITIONS).2 =
      [ ("CREATED",
          [ { dest := "PENDING", trigger := some "request" },
            { dest := "ITEM_ON_LOAN", trigger := some "checkout" } ]),
        ("PENDING",
          [ { dest := "ITEM_AT_DESK" },
            { dest := "ITEM_IN_TRANSIT_FOR_PICKUP" },
            { dest := "CANCELLED", trigger := some "cancel" } ]),
        ("ITEM_AT_DESK",
          [ { dest := "ITEM_ON_LOAN" },
            { dest := "CANCELLED", trigger := some "cancel" } ]),
        ("ITEM_IN_TRANSIT_FOR_PICKUP",
          [ { dest := "ITEM_AT_DESK" },
            { dest := "CANCELLED", trigger := some "cancel" } ]),
        ("ITEM_ON_LOAN",
          [ { dest := "ITEM_RETURNED" },
            { dest := "ITEM_IN_TRANSIT_TO_HOUSE" },
            { dest := "CANCELLED", trigger := some "cancel" } ]),
        ("ITEM_IN_TRANSIT_TO_HOUSE",
          [ { dest := "ITEM_RETURNED" },
            { dest := "CANCELLED", trigger := some "cancel" } ]),
        ("ITEM_RETURNED", []),
        ("CANCELLED", []) ] :=
  ⟨rfl, rfl⟩

/-- A failed `parse_date` always raises `ValueError`. -/
theorem parse_date_error {d : DateField} {e : HardErr}
    (h : parse_date d = .error e) : e = .valueError := by
  cases d with
  | absent => simp [parse_date] at h
  | dt t => simp [parse_date] at h
  | str s =>
    cases s with
    | iso t => simp [parse_date] at h
    | bad s2 =>
      simp [parse_date] at h
      exact h.symm

/-- If checkout date validation ends in `AssertionError`, the validation
policy either returned `False` or itself raised `AssertionError`. -/
theorem checkRange_assert_inv {ctx : Ctx} {l : Loan} {s e : Int}
    (h : (checkRange ctx l s e).2 = some .assertionError) :
    ∃ l2 s2 e2, ctx.validate l2 s2 e2 = .ok false ∨
      ctx.validate l2 s2 e2 = .error .assertionError := by
  unfold checkRange at h
  split at h
  · split at h <;> simp at h
  · split at h
    · next er heq =>
      simp only [Option.some.injEq] at h
      subst h
      exact ⟨_, _, _, Or.inr heq⟩
    · next b heq =>
      split at h
      · simp at h
      · next hb =>
        simp only [Bool.not_eq_true] at hb
        subst hb
        exact ⟨_, _, _, Or.inl heq⟩

theorem ensure_valid_assert_inv {ctx : Ctx} {loan : Loan}
    (h : (ensure_valid_loan ctx loan).2 = some .assertionError) :
    ∃ l2 s e, ctx.validate l2 s e = .ok false ∨
      ctx.validate l2 s e = .error .assertionError := by
  unfold ensure_valid_loan at h
  split at h
  · simp at h
  · split at h
    · next er heq =>
      have hv := parse_date_error heq
      subst hv
      simp at h
    · split at h
      · next er heq =>
        have hv := parse_date_error heq
        subst hv
        simp at h
      · split at h
        · exact checkRange_assert_inv h
        · simp at h
        · simp at h
        · exact checkRange_assert_inv h

/-- C10: the duration-validation policy result is checked only by a bare
`assert`: a loan that reaches the assert with a policy returning falsy aborts
checkout date validation with `AssertionError` rather than a classified
transition error; and the assert is unreachable whenever the policy either
returns truthy or raises a (non-assertion) hard error itself — which the
default 60-day policy `is_loan_valid` does. -/
theorem c10_validate_assert :
    (∀ (ctx : Ctx) (loan : Loan) (s e : Int),
        ¬ loan.transaction_date = .absent →
        parse_date (setStart loan).start_date = .ok (some s) →
        parse_date (setStart loan).end_date = .ok (some e) →
        ¬ e < s →
        ctx.validate (setStart loan) s e = .ok false →
        ensure_valid_loan ctx loan = (setStart loan, some .assertionError)) ∧
    (∀ ctx : Ctx,
        (∀ l2 s e, ctx.validate l2 s e = .ok true ∨
          ∃ er, er ≠ .assertionError ∧ ctx.validate l2 s e = .error er) →
        ∀ loan, (ensure_valid_loan ctx loan).2 ≠ some .assertionError) ∧
    (∀ (l2 : Loan) (s e : Int), is_loan_valid l2 s e = .ok true ∨
        ∃ er, er ≠ .assertionError ∧ is_loan_valid l2 s e = .error er) := by
  refine ⟨?_, ?_, ?_⟩
  · intro ctx loan s e htd hs he hnlt hv
    unfold ensure_valid_loan checkRange
    rw [if_neg htd]
    simp [hs, he, hnlt, hv]
  · intro ctx hpol loan hassert
    obtain ⟨l2, s, e, hor⟩ := ensure_valid_assert_inv hassert
    rcases hpol l2 s e with hOk | ⟨er, hne, hErr⟩
    · rcases hor with hF | hA
      · rw [hOk] at hF
        simp at hF
      · rw [hOk] at hA
        simp at hA
    · rcases hor with hF | hA
      · rw [hErr] at hF
        simp at hF
      · rw [hErr] at hA
        simp only [Except.error.injEq] at hA
        exact hne hA
  · intro l2 s e
    unfold is_loan_valid
    split
    · exact Or.inr ⟨.policiesViolation, by simp, rfl⟩
    · exact Or.inl rfl

/-- Witness for C10: a policy returning `False` makes checkout date
validation end in `AssertionError`. -/
theorem c10_witness :
    ensure_valid_loan ctxFalsyValidate
        { loanCreated with
            transaction_date := .str (.iso 0), end_date := .str (.iso 100) } =
      (setStart { loanCreated with
          transaction_date := .str (.iso 0), end_date := .str (.iso 100) },
        some .assertionError) :=
  c10_validate_assert.1 ctxFalsyValidate
    { loanCreated with
        transaction_date := .str (.iso 0), end_date := .str (.iso 100) }
    0 100 (by decide) rfl rfl (by decide) rfl

end Circ
